import Mathlib

/-!
Verification of the acquisitions auth flow against its specification.

The repository is a Node/Express REST API. The files under verification are
the session cookie manager (src/src/utils/cookies.js), the full auth
controller (src/unnamed/part_000, exporting signup, signin, signout) and the
stub auth controller (src/src/controllers/auth.controller.js). The auth
service, the validation schemas, the token issuer and the validation-error
formatter are imported by the controllers but their files are not part of
the sources here; those collaborators are modelled from the specification
and marked as such in their doc comments.

JavaScript objects that only ever get read by key are modelled as binding
lists in which a later binding shadows an earlier one, which matches the
semantics of object spread. Thrown JavaScript errors are modelled as a
structure carrying the free-text message plus an optional explicit
error-kind field. A controller invocation is modelled as a pure function
from the environment, the user store and the request to an outcome: the
list of side effects it performed, the HTTP status and JSON body it
responded with, and the error it passed to the next middleware, if any.
-/

namespace Acquisitions

/-- JSON-like values, used to model the response bodies the controllers build. -/
inductive JVal where
  | str (v : String)
  | int (v : Int)
  | bool (v : Bool)
  | arr (vs : List JVal)
  | obj (fields : List (String × JVal))

/-- Keys of a JSON object, in order; empty for the other constructors. -/
def jobjKeys : JVal → List String
  | JVal.obj fields => fields.map Prod.fst
  | _ => []

/-- Values cookie option objects can hold. -/
inductive OptVal where
  | b (v : Bool)
  | s (v : String)
  | n (v : Int)
deriving DecidableEq

/-- Read a key from a JavaScript object modelled as a binding list where a
later binding shadows an earlier one, as produced by object spread. -/
def getOpt (o : List (String × OptVal)) (k : String) : Option OptVal :=
  (o.reverse.find? (fun p => p.fst == k)).map Prod.snd

/-- Object spread: writing the entries of a first and then the entries of b,
so a key of b shadows the same key of a. -/
def jsSpread (a b : List (String × OptVal)) : List (String × OptVal) :=
  a ++ b

/-- Default cookie options, from getOptions in src/src/utils/cookies.js,
with process.env.NODE_ENV passed as a parameter. The source spells the
lifetime key maxAfge; the embedding keeps that spelling exactly as written,
together with the literal 15 * 60 * 1000 the source comments as 15 minutes. -/
def cookies.getOptions (nodeEnv : String) : List (String × OptVal) :=
  [("httpOnly", OptVal.b true),
   ("secure", OptVal.b (nodeEnv == "production")),
   ("sameSite", OptVal.s "strict"),
   ("maxAfge", OptVal.n (15 * 60 * 1000))]

/-- Options passed to res.cookie by cookies.set in src/src/utils/cookies.js:
the defaults spread-merged with the caller option object, whose default is
the empty object. -/
def cookies.setOptions (nodeEnv : String) (option : List (String × OptVal)) : List (String × OptVal) :=
  jsSpread (cookies.getOptions nodeEnv) option

/-- Options passed to res.clearCookie by cookies.clear in
src/src/utils/cookies.js. The options parameter has no default value, so a
call that omits it passes undefined, and spreading undefined adds nothing;
that is modelled by an Option argument defaulting to the empty list. -/
def cookies.clearOptions (nodeEnv : String) (options : Option (List (String × OptVal))) : List (String × OptVal) :=
  jsSpread (cookies.getOptions nodeEnv) (options.getD [])

/-- A response cookie jar: cookies by name, with value and attributes. -/
def Jar := List (String × String × List (String × OptVal))

/-- Modelled from the spec: the effect of res.cookie on the client jar (the
Express response object is a library value, not code of this repository).
Setting stores the cookie under its name with its attributes, replacing a
previous cookie of the same name. -/
def jarSet (jar : Jar) (name value : String) (opts : List (String × OptVal)) : Jar :=
  (name, value, opts) :: jar.filter (fun c => c.fst != name)

/-- Modelled from the spec: the effect of res.clearCookie on the client jar.
Clearing removes the cookie exactly when the clearing attributes match the
stored ones; an attribute mismatch between set and clear prevents removal,
which is the failure mode the spec requires the round trip to avoid. -/
def jarClear (jar : Jar) (name : String) (opts : List (String × OptVal)) : Jar :=
  jar.filter (fun c => !(c.fst == name && c.snd.snd == opts))

/-- Whether the jar still holds a cookie under the given name. -/
def jarHas (jar : Jar) (name : String) : Bool :=
  jar.any (fun c => c.fst == name)

theorem getOpt_jsSpread (a b : List (String × OptVal)) (k : String) :
    getOpt (jsSpread a b) k =
      match getOpt b k with
      | some v => some v
      | none => getOpt a k := by
  unfold getOpt jsSpread
  rw [List.reverse_append, List.find?_append]
  cases h : b.reverse.find? (fun p => p.fst == k) <;>
    simp [Option.orElse, h]

theorem jarHas_filter_ne (l : Jar) (name : String) :
    jarHas (l.filter (fun c => c.fst != name)) name = false := by
  rw [jarHas, List.any_eq_false]
  intro c hc
  have h := (List.mem_filter.mp hc).2
  simp only [bne_iff_ne] at h
  simp [h]

/-- A user row of the users table: the password field holds the bcrypt hash,
never the plaintext, and the role is drawn from the closed set user, admin. -/
structure User where
  id : Int
  name : String
  email : String
  password : String
  role : String
deriving DecidableEq

/-- A request body as the controllers receive it: every field optional,
since validation is what enforces presence. -/
structure Body where
  name : Option String
  email : Option String
  password : Option String
  role : Option String
deriving DecidableEq

/-- Modelled from the spec: a well-formed email has a nonempty part before
and after a single at sign (auth.validation.js is not under src; the spec
only demands that malformed emails be rejected). -/
def emailOk (e : String) : Bool :=
  let u := e.toList.takeWhile (fun c => c != '@')
  match e.toList.dropWhile (fun c => c != '@') with
  | '@' :: t => !u.isEmpty && !t.isEmpty && !t.contains '@'
  | _ => false

/-- Modelled from the spec: the field-level issues the signup Zod schema
reports (auth.validation.js is not under src). Spec sections 4.5 and 6
require name, email and password, an email format check, a password minimum
length (the spec fixes no bound; the embedding takes nonempty, the weakest
reading, which already rejects the empty password), and a role drawn from
the closed set user, admin when present. One issue per violated field. -/
def signupIssues (b : Body) : List String :=
  (match b.name with
   | none => ["name"]
   | some n => if n.isEmpty then ["name"] else []) ++
  (match b.email with
   | none => ["email"]
   | some e => if emailOk e then [] else ["email"]) ++
  (match b.password with
   | none => ["password"]
   | some p => if p.isEmpty then ["password"] else []) ++
  (match b.role with
   | none => []
   | some r => if r == "user" || r == "admin" then [] else ["role"])

/-- Modelled from the spec: the field-level issues the signin Zod schema
reports: email and password only, same field rules as signup. -/
def signinIssues (b : Body) : List String :=
  (match b.email with
   | none => ["email"]
   | some e => if emailOk e then [] else ["email"]) ++
  (match b.password with
   | none => ["password"]
   | some p => if p.isEmpty then ["password"] else [])

/-- Parsed signup data, role defaulted to user when the body omitted it. -/
structure SignupData where
  name : String
  email : String
  password : String
  role : String
deriving DecidableEq

/-- Parsed signin data. -/
structure SigninData where
  email : String
  password : String
deriving DecidableEq

/-- Modelled from the spec: signupSchema.safeParse, returning the parsed
data on success and the issue list on failure; the role defaults to user
when unspecified, per spec section 3. -/
def signupSchemaParse (b : Body) : Except (List String) SignupData :=
  if signupIssues b = [] then
    Except.ok ⟨b.name.getD "", b.email.getD "", b.password.getD "", b.role.getD "user"⟩
  else Except.error (signupIssues b)

/-- Modelled from the spec: signinSchema.safeParse. -/
def signinSchemaParse (b : Body) : Except (List String) SigninData :=
  if signinIssues b = [] then
    Except.ok ⟨b.email.getD "", b.password.getD ""⟩
  else Except.error (signinIssues b)

/-- A thrown JavaScript error as the controllers see it: the free-text
message, plus an optional explicit error-kind field of the sort the spec
taxonomy calls for; the modelled service errors populate it, and whether the
controllers consult it is exactly what claim C2 asks. -/
structure JsError where
  message : String
  code : Option String
deriving DecidableEq

/-- Modelled from the spec: bcrypt hashing (a library, not code of this
repository); an injective tag stands in for the salted one-way function,
enough to make verification succeed exactly on the original password. -/
def bcryptHash (p : String) : String :=
  "bcrypt$" ++ p

/-- Modelled from the spec: createUser of auth.service.js, which is not
under src. Spec section 4.4: check for an existing user by email and fail
with the UserExists outcome when present, otherwise hash the password,
insert the row and return the created record. Spec section 4.5 requires the
error string the service throws to match exactly what the controller
checks, so the message is the literal the controller in part_000 compares
against. -/
def createUser (store : List User) (d : SignupData) : Except JsError User :=
  if store.any (fun u => u.email == d.email) then
    Except.error ⟨"User with this email already exists", some "UserExists"⟩
  else
    Except.ok ⟨(store.length : Int) + 1, d.name, d.email, bcryptHash d.password, d.role⟩

/-- Modelled from the spec: authenticateUser of auth.service.js, which is
not under src. Spec section 4.4: look up by email, fail with UserNotFound
when absent, verify the password, fail with InvalidCredentials on mismatch,
return the record on success; the error strings match what the controller
checks, as spec section 4.5 requires. -/
def authenticateUser (store : List User) (email password : String) : Except JsError User :=
  match store.find? (fun u => u.email == email) with
  | none => Except.error ⟨"User not found", some "UserNotFound"⟩
  | some u =>
    if u.password == bcryptHash password then Except.ok u
    else Except.error ⟨"Invalid credentials", some "InvalidCredentials"⟩

/-- Modelled from the spec: jwttoken.sign of utils/jwt.js, which is not
under src; the token encodes the identity claims id, email and role. -/
def jwtSign (id : Int) (email role : String) : String :=
  "jwt." ++ toString id ++ "." ++ email ++ "." ++ role

/-- Side effects a controller invocation performs, in order. -/
inductive Effect where
  | serviceCall (operation : String)
  | logInfo (msg : String)
  | logError (msg : String)
  | setCookie (name value : String) (opts : List (String × OptVal))
  | clearCookie (name : String) (opts : List (String × OptVal))
deriving DecidableEq

/-- Result of one controller invocation: the effects performed, the HTTP
status and JSON body responded with, and the error passed to next, if any. -/
structure Outcome where
  effects : List Effect
  status : Option Nat
  body : Option JVal
  nexted : Option JsError

/-- Modelled from the spec: formatValidationError of utils/format.js, which
is not under src; it turns the schema issues into the field-level detail
list of the 400 body. -/
def validationFailedBody (issues : List String) : JVal :=
  JVal.obj [("error", JVal.str "Validation Failed"),
            ("details", JVal.arr (issues.map JVal.str))]

/-- The sanitized user payload both success responses build in
src/unnamed/part_000: exactly id, name, email and role of the returned
record. -/
def userPayload (u : User) : JVal :=
  JVal.obj [("id", JVal.int u.id), ("name", JVal.str u.name),
            ("email", JVal.str u.email), ("role", JVal.str u.role)]

/-- What a catch clause does with a thrown error. -/
inductive CatchResult where
  | respond (status : Nat) (body : JVal)
  | next (error : JsError)

/-- Catch clause of signup in src/unnamed/part_000 lines 42 to 50: the
exact duplicate-email message string maps to 409, everything else goes to
next. -/
def signupCatch (error : JsError) : CatchResult :=
  if error.message == "User with this email already exists" then
    CatchResult.respond 409 (JVal.obj [("error", JVal.str "Email already exists")])
  else CatchResult.next error

/-- Catch clause of signin in src/unnamed/part_000 lines 87 to 98: the two
exact credential message strings map to 401 with the generic body,
everything else goes to next. -/
def signinCatch (error : JsError) : CatchResult :=
  if error.message == "User not found" || error.message == "Invalid credentials" then
    CatchResult.respond 401 (JVal.obj [("error", JVal.str "Invalid email or password")])
  else CatchResult.next error

/-- The parts of the request object the handlers read: the parsed cookies. -/
structure Req where
  cookies : List (String × String)
deriving DecidableEq

/-- cookies.get of src/src/utils/cookies.js: read req.cookies by name. -/
def cookies.get (req : Req) (name : String) : Option String :=
  (req.cookies.find? (fun p => p.fst == name)).map Prod.snd

/-- Signup controller of src/unnamed/part_000 lines 8 to 51: validate the
body, respond 400 with the formatted issues on failure; otherwise call
createUser, sign a token over id, email and role, set the token cookie with
no overrides, log, and respond 201 with the sanitized user payload; a
thrown error is logged and dispatched by the catch clause. -/
def signup (nodeEnv : String) (store : List User) (b : Body) : Outcome :=
  match signupSchemaParse b with
  | Except.error issues =>
    ⟨[], some 400, some (validationFailedBody issues), none⟩
  | Except.ok d =>
    match createUser store d with
    | Except.ok user =>
      let token := jwtSign user.id user.email user.role
      ⟨[Effect.serviceCall "createUser",
        Effect.setCookie "token" token (cookies.setOptions nodeEnv []),
        Effect.logInfo ("User registered successfully: " ++ d.email)],
       some 201,
       some (JVal.obj [("message", JVal.str "User registered"), ("user", userPayload user)]),
       none⟩
    | Except.error e =>
      match signupCatch e with
      | CatchResult.respond st body =>
        ⟨[Effect.serviceCall "createUser", Effect.logError "Signup Error"],
         some st, some body, none⟩
      | CatchResult.next err =>
        ⟨[Effect.serviceCall "createUser", Effect.logError "Signup Error"],
         none, none, some err⟩

/-- Signin controller of src/unnamed/part_000 lines 53 to 99: validate the
body, respond 400 on failure; otherwise call authenticateUser, sign a token,
set the token cookie with no overrides, log, and respond 200 with the
sanitized user payload; a thrown error is logged and dispatched by the
catch clause. -/
def signin (nodeEnv : String) (store : List User) (b : Body) : Outcome :=
  match signinSchemaParse b with
  | Except.error issues =>
    ⟨[], some 400, some (validationFailedBody issues), none⟩
  | Except.ok d =>
    match authenticateUser store d.email d.password with
    | Except.ok user =>
      let token := jwtSign user.id user.email user.role
      ⟨[Effect.serviceCall "authenticateUser",
        Effect.setCookie "token" token (cookies.setOptions nodeEnv []),
        Effect.logInfo ("User signed in successfully: " ++ d.email)],
       some 200,
       some (JVal.obj [("message", JVal.str "User signed in"), ("user", userPayload user)]),
       none⟩
    | Except.error e =>
      match signinCatch e with
      | CatchResult.respond st body =>
        ⟨[Effect.serviceCall "authenticateUser", Effect.logError "Signin Error"],
         some st, some body, none⟩
      | CatchResult.next err =>
        ⟨[Effect.serviceCall "authenticateUser", Effect.logError "Signin Error"],
         none, none, some err⟩

/-- Signout controller of src/unnamed/part_000 lines 101 to 118: read the
token cookie, clear it unconditionally with no explicit options, log one of
two messages depending on whether a token was present, and respond 200. -/
def signout (nodeEnv : String) (req : Req) : Outcome :=
  let token := cookies.get req "token"
  ⟨[Effect.clearCookie "token" (cookies.clearOptions nodeEnv none),
    Effect.logInfo (match token with
      | some _ => "User signed out successfully"
      | none => "Signout called without an active session")],
   some 200, some (JVal.obj [("message", JVal.str "User signed out")]), none⟩

/-- Signup controller of src/src/controllers/auth.controller.js: validates
the body with the same schema, then, where the full controller calls the
auth service, has only a comment; it destructures name, email and role
(not the password), logs, and responds 201 with a user whose id is the
literal 1. No token is minted and no cookie is set. Nothing in the embedded
try body can throw, so the catch clause mapping the duplicate-email message
to 409 is unreachable here and contributes no behavior. -/
def stubSignup (b : Body) : Outcome :=
  match signupSchemaParse b with
  | Except.error issues =>
    ⟨[], some 400, some (validationFailedBody issues), none⟩
  | Except.ok d =>
    ⟨[Effect.logInfo ("User registered successfully: " ++ d.email)],
     some 201,
     some (JVal.obj [("message", JVal.str "User registered"),
       ("user", JVal.obj [("id", JVal.int 1), ("name", JVal.str d.name),
                          ("email", JVal.str d.email), ("role", JVal.str d.role)])]),
     none⟩

theorem jarHas_clear_set (jar : Jar) (n v : String) (opts : List (String × OptVal)) :
    jarHas (jarClear (jarSet jar n v opts) n opts) n = false := by
  rw [jarHas, List.any_eq_false]
  intro c hc
  rw [jarClear] at hc
  obtain ⟨hmem, hp⟩ := List.mem_filter.mp hc
  rw [jarSet] at hmem
  rcases List.mem_cons.mp hmem with heq | htail
  · subst heq
    simp at hp
  · have hq := (List.mem_filter.mp htail).2
    simp only [bne_iff_ne] at hq
    simp [hq]

/-- C1: the claim fails on the code, as a slip against the stated intent:
the default options in cookies.getOptions spell the lifetime key maxAfge,
so the option object every cookies.set call passes carries no maxAge key at
all and expiration is silently disabled; at the concrete call with no
overrides the maxAge lookup yields none while the misspelled key holds the
configured 900000 milliseconds the source comments as 15 minutes. -/
theorem C1_maxAge_key_misspelled :
    getOpt (cookies.setOptions "production" []) "maxAge" = none ∧
    getOpt (cookies.setOptions "production" []) "maxAfge" = some (OptVal.n 900000) :=
  ⟨rfl, rfl⟩

/-- C8: every set call passes the defaults spread-merged with the caller
overrides, an overridden key taking precedence over the default for the
same key and the default applying otherwise; the defaults bind httpOnly to
true, secure to whether the environment is production, and sameSite to
strict; with no overrides the cookie is set with httpOnly true. -/
theorem C8_set_merges_defaults_with_overrides (nodeEnv : String)
    (option : List (String × OptVal)) (k : String) :
    (∀ v, getOpt option k = some v → getOpt (cookies.setOptions nodeEnv option) k = some v) ∧
    (getOpt option k = none →
      getOpt (cookies.setOptions nodeEnv option) k = getOpt (cookies.getOptions nodeEnv) k) ∧
    getOpt (cookies.getOptions nodeEnv) "httpOnly" = some (OptVal.b true) ∧
    getOpt (cookies.getOptions nodeEnv) "secure" = some (OptVal.b (nodeEnv == "production")) ∧
    getOpt (cookies.getOptions nodeEnv) "sameSite" = some (OptVal.s "strict") ∧
    getOpt (cookies.setOptions nodeEnv []) "httpOnly" = some (OptVal.b true) := by
  refine ⟨?_, ?_, rfl, rfl, rfl, rfl⟩
  · intro v hv
    rw [cookies.setOptions, getOpt_jsSpread, hv]
  · intro hv
    rw [cookies.setOptions, getOpt_jsSpread, hv]

/-- C8 witness: at a concrete call, an httpOnly override wins over the
default and, absent an override, the default httpOnly true applies. -/
theorem C8_witness :
    getOpt (cookies.setOptions "development" [("httpOnly", OptVal.b false)]) "httpOnly" =
      some (OptVal.b false) ∧
    getOpt (cookies.setOptions "development" []) "httpOnly" = some (OptVal.b true) :=
  ⟨(C8_set_merges_defaults_with_overrides "development" [("httpOnly", OptVal.b false)]
      "httpOnly").1 (OptVal.b false) rfl,
   (C8_set_merges_defaults_with_overrides "development" [] "httpOnly").2.2.2.2.2⟩

/-- C9: the clear call applies exactly the same attributes as the set call,
since both spread the same defaults and the controllers invoke both with no
overrides; hence in the jar model, where an attribute mismatch between set
and clear prevents removal, setting any cookie and then clearing it leaves
no cookie of that name. -/
theorem C9_set_then_clear_roundtrip (nodeEnv name value : String) (jar : Jar) :
    cookies.clearOptions nodeEnv none = cookies.setOptions nodeEnv [] ∧
    jarHas (jarClear (jarSet jar name value (cookies.setOptions nodeEnv []))
      name (cookies.clearOptions nodeEnv none)) name = false :=
  ⟨rfl, jarHas_clear_set jar name value (cookies.setOptions nodeEnv [])⟩

/-- C2 counterexample: the signup catch clause distinguishes two errors
that carry the identical explicit error-kind field and differ only in their
free-text message, so the controller translation is decided by comparing
the message string, not by the error-kind field the claim describes. -/
theorem C2_counterexample_message_comparison :
    (JsError.mk "User with this email already exists" (some "UserExists")).code =
      (JsError.mk "UserExists" (some "UserExists")).code ∧
    signupCatch (JsError.mk "User with this email already exists" (some "UserExists")) ≠
      signupCatch (JsError.mk "UserExists" (some "UserExists")) := by
  refine ⟨rfl, ?_⟩
  intro h
  rw [signupCatch, signupCatch] at h
  simp at h

/-- C2 amended: the controllers translate a raised service error by
comparing its free-text message against exact string literals, ignoring any
error-kind field: whatever the code field holds, signup maps the exact
duplicate-email message to 409 and passes everything else to next, and
signin maps the two exact credential messages to 401 with the generic body
and passes everything else to next. -/
theorem C2_translation_is_by_message (e : JsError) :
    (e.message = "User with this email already exists" →
      signupCatch e = CatchResult.respond 409 (JVal.obj [("error", JVal.str "Email already exists")])) ∧
    (e.message ≠ "User with this email already exists" →
      signupCatch e = CatchResult.next e) ∧
    (e.message = "User not found" ∨ e.message = "Invalid credentials" →
      signinCatch e = CatchResult.respond 401 (JVal.obj [("error", JVal.str "Invalid email or password")])) ∧
    (e.message ≠ "User not found" ∧ e.message ≠ "Invalid credentials" →
      signinCatch e = CatchResult.next e) := by
  refine ⟨?_, ?_, ?_, ?_⟩
  · intro h
    rw [signupCatch]
    simp [h]
  · intro h
    rw [signupCatch]
    simp [h]
  · intro h
    rw [signinCatch]
    rcases h with h | h <;> simp [h]
  · intro h
    rw [signinCatch]
    simp [h.1, h.2]

/-- C2 witness: the amended translation applied to two concrete errors, one
unknown message passed to next by signup, one credential message mapped to
the generic 401 by signin. -/
theorem C2_translation_witness :
    signupCatch (JsError.mk "boom" none) = CatchResult.next (JsError.mk "boom" none) ∧
    signinCatch (JsError.mk "Invalid credentials" none) =
      CatchResult.respond 401 (JVal.obj [("error", JVal.str "Invalid email or password")]) :=
  ⟨(C2_translation_is_by_message ⟨"boom", none⟩).2.1 (by decide),
   (C2_translation_is_by_message ⟨"Invalid credentials", none⟩).2.2.1 (Or.inr rfl)⟩

theorem signup_eq_of_service_error (nodeEnv : String) (store : List User) (b : Body)
    (d : SignupData) (e : JsError)
    (hv : signupSchemaParse b = Except.ok d) (hs : createUser store d = Except.error e) :
    signup nodeEnv store b =
      match signupCatch e with
      | CatchResult.respond st body =>
        ⟨[Effect.serviceCall "createUser", Effect.logError "Signup Error"],
         some st, some body, none⟩
      | CatchResult.next err =>
        ⟨[Effect.serviceCall "createUser", Effect.logError "Signup Error"],
         none, none, some err⟩ := by
  simp only [signup, hv, hs]

theorem signup_eq_of_service_ok (nodeEnv : String) (store : List User) (b : Body)
    (d : SignupData) (user : User)
    (hv : signupSchemaParse b = Except.ok d) (hs : createUser store d = Except.ok user) :
    signup nodeEnv store b =
      ⟨[Effect.serviceCall "createUser",
        Effect.setCookie "token" (jwtSign user.id user.email user.role) (cookies.setOptions nodeEnv []),
        Effect.logInfo ("User registered successfully: " ++ d.email)],
       some 201,
       some (JVal.obj [("message", JVal.str "User registered"), ("user", userPayload user)]),
       none⟩ := by
  simp only [signup, hv, hs]

theorem signin_eq_of_service_error (nodeEnv : String) (store : List User) (b : Body)
    (d : SigninData) (e : JsError)
    (hv : signinSchemaParse b = Except.ok d)
    (hs : authenticateUser store d.email d.password = Except.error e) :
    signin nodeEnv store b =
      match signinCatch e with
      | CatchResult.respond st body =>
        ⟨[Effect.serviceCall "authenticateUser", Effect.logError "Signin Error"],
         some st, some body, none⟩
      | CatchResult.next err =>
        ⟨[Effect.serviceCall "authenticateUser", Effect.logError "Signin Error"],
         none, none, some err⟩ := by
  simp only [signin, hv, hs]

theorem signin_eq_of_service_ok (nodeEnv : String) (store : List User) (b : Body)
    (d : SigninData) (user : User)
    (hv : signinSchemaParse b = Except.ok d)
    (hs : authenticateUser store d.email d.password = Except.ok user) :
    signin nodeEnv store b =
      ⟨[Effect.serviceCall "authenticateUser",
        Effect.setCookie "token" (jwtSign user.id user.email user.role) (cookies.setOptions nodeEnv []),
        Effect.logInfo ("User signed in successfully: " ++ d.email)],
       some 200,
       some (JVal.obj [("message", JVal.str "User signed in"), ("user", userPayload user)]),
       none⟩ := by
  simp only [signin, hv, hs]

theorem authenticateUser_notFound (store : List User) (email password : String)
    (habs : store.find? (fun u => u.email == email) = none) :
    authenticateUser store email password =
      Except.error ⟨"User not found", some "UserNotFound"⟩ := by
  simp only [authenticateUser, habs]

theorem authenticateUser_badPassword (store : List User) (email password : String) (u : User)
    (hu : store.find? (fun u2 => u2.email == email) = some u)
    (hpw : u.password ≠ bcryptHash password) :
    authenticateUser store email password =
      Except.error ⟨"Invalid credentials", some "InvalidCredentials"⟩ := by
  simp [authenticateUser, hu, beq_eq_false_iff_ne.mpr hpw]

/-- C3: two failing sign-in attempts, one whose email is absent from the
store and one whose email exists but whose password hash does not match,
receive the same 401 status and the identical generic body, so the response
reveals nothing about which of the two checks failed. -/
theorem C3_signin_401_indistinguishable (nodeEnv : String) (store : List User)
    (b1 b2 : Body) (d1 d2 : SigninData) (u : User)
    (h1 : signinSchemaParse b1 = Except.ok d1)
    (h2 : signinSchemaParse b2 = Except.ok d2)
    (habs : store.find? (fun u2 => u2.email == d1.email) = none)
    (hu : store.find? (fun u2 => u2.email == d2.email) = some u)
    (hpw : u.password ≠ bcryptHash d2.password) :
    (signin nodeEnv store b1).status = some 401 ∧
    (signin nodeEnv store b2).status = some 401 ∧
    (signin nodeEnv store b1).body = (signin nodeEnv store b2).body ∧
    (signin nodeEnv store b1).body =
      some (JVal.obj [("error", JVal.str "Invalid email or password")]) := by
  rw [signin_eq_of_service_error nodeEnv store b1 d1 _ h1
        (authenticateUser_notFound store d1.email d1.password habs),
      signin_eq_of_service_error nodeEnv store b2 d2 _ h2
        (authenticateUser_badPassword store d2.email d2.password u hu hpw)]
  exact ⟨rfl, rfl, rfl, rfl⟩

/-- C3 witness: with one stored user, a sign-in for an unknown email and a
sign-in for the stored email with a wrong password produce the same body
and both carry status 401. -/
theorem C3_witness :
    (signin "production" [⟨1, "Ann", "a@x.com", bcryptHash "secret123", "user"⟩]
        ⟨none, some "b@x.com", some "pw123", none⟩).body =
      (signin "production" [⟨1, "Ann", "a@x.com", bcryptHash "secret123", "user"⟩]
        ⟨none, some "a@x.com", some "wrongpw", none⟩).body ∧
    (signin "production" [⟨1, "Ann", "a@x.com", bcryptHash "secret123", "user"⟩]
        ⟨none, some "b@x.com", some "pw123", none⟩).status = some 401 :=
  have h := C3_signin_401_indistinguishable "production"
    [⟨1, "Ann", "a@x.com", bcryptHash "secret123", "user"⟩]
    ⟨none, some "b@x.com", some "pw123", none⟩
    ⟨none, some "a@x.com", some "wrongpw", none⟩
    ⟨"b@x.com", "pw123"⟩ ⟨"a@x.com", "wrongpw"⟩
    ⟨1, "Ann", "a@x.com", bcryptHash "secret123", "user"⟩
    rfl rfl rfl rfl (by decide)
  ⟨h.2.2.1, h.1⟩

/-- C4: for every request on which the service succeeds, signup responds
201 and signin responds 200, each with a body whose user object is built
from exactly the id, name, email and role of the record the service
returned: the payload has exactly those four keys, and no password key and
no projection of the stored password hash appears in it. The two halves
quantify their requests independently, so each covers every success of its
own handler on the store. -/
theorem C4_success_payload_sanitized (nodeEnv : String) (store : List User) :
    (∀ (b : Body) (d : SignupData) (u : User),
      signupSchemaParse b = Except.ok d → createUser store d = Except.ok u →
      (signup nodeEnv store b).status = some 201 ∧
      (signup nodeEnv store b).body =
        some (JVal.obj [("message", JVal.str "User registered"), ("user", userPayload u)]) ∧
      jobjKeys (userPayload u) = ["id", "name", "email", "role"] ∧
      "password" ∉ jobjKeys (userPayload u)) ∧
    (∀ (b : Body) (d : SigninData) (u : User),
      signinSchemaParse b = Except.ok d →
      authenticateUser store d.email d.password = Except.ok u →
      (signin nodeEnv store b).status = some 200 ∧
      (signin nodeEnv store b).body =
        some (JVal.obj [("message", JVal.str "User signed in"), ("user", userPayload u)]) ∧
      jobjKeys (userPayload u) = ["id", "name", "email", "role"] ∧
      "password" ∉ jobjKeys (userPayload u)) := by
  constructor
  · intro b d u hv hs
    rw [signup_eq_of_service_ok nodeEnv store b d u hv hs]
    have hk : jobjKeys (userPayload u) = ["id", "name", "email", "role"] := rfl
    refine ⟨rfl, rfl, hk, ?_⟩
    rw [hk]
    decide
  · intro b d u hv hs
    rw [signin_eq_of_service_ok nodeEnv store b d u hv hs]
    have hk : jobjKeys (userPayload u) = ["id", "name", "email", "role"] := rfl
    refine ⟨rfl, rfl, hk, ?_⟩
    rw [hk]
    decide

/-- C4 witness: a first registration against the empty store responds 201,
a concrete signin against a one-user store responds 200, and the sanitized
payload of the created user carries no password key. -/
theorem C4_witness :
    (signup "production" [] ⟨some "Ann", some "a@x.com", some "secret123", none⟩).status =
      some 201 ∧
    (signin "production" [⟨1, "Bob", "b@y.com", bcryptHash "pw12345", "user"⟩]
        ⟨none, some "b@y.com", some "pw12345", none⟩).status = some 200 ∧
    "password" ∉ jobjKeys (userPayload ⟨1, "Ann", "a@x.com", bcryptHash "secret123", "user"⟩) :=
  have h1 := (C4_success_payload_sanitized "production" []).1
    ⟨some "Ann", some "a@x.com", some "secret123", none⟩
    ⟨"Ann", "a@x.com", "secret123", "user"⟩
    ⟨1, "Ann", "a@x.com", bcryptHash "secret123", "user"⟩ rfl rfl
  have h2 := (C4_success_payload_sanitized "production"
      [⟨1, "Bob", "b@y.com", bcryptHash "pw12345", "user"⟩]).2
    ⟨none, some "b@y.com", some "pw12345", none⟩
    ⟨"b@y.com", "pw12345"⟩
    ⟨1, "Bob", "b@y.com", bcryptHash "pw12345", "user"⟩ rfl rfl
  ⟨h1.1, h2.1, h1.2.2.2⟩

/-- C5: when the submitted email already belongs to a stored user, signup
responds 409 with the duplicate-email body, for every valid payload variant
of name, password and role. -/
theorem C5_duplicate_email_409 (nodeEnv : String) (store : List User) (b : Body)
    (d : SignupData)
    (hv : signupSchemaParse b = Except.ok d)
    (hex : store.any (fun u => u.email == d.email) = true) :
    (signup nodeEnv store b).status = some 409 ∧
    (signup nodeEnv store b).body =
      some (JVal.obj [("error", JVal.str "Email already exists")]) := by
  have hs : createUser store d =
      Except.error ⟨"User with this email already exists", some "UserExists"⟩ := by
    simp [createUser, hex]
  rw [signup_eq_of_service_error nodeEnv store b d _ hv hs]
  exact ⟨rfl, rfl⟩

/-- C5 witness: re-registering a stored email with a different name,
password and role responds 409 with the duplicate-email body. -/
theorem C5_witness :
    (signup "production" [⟨1, "Ann", "a@x.com", bcryptHash "secret123", "user"⟩]
        ⟨some "Bob", some "a@x.com", some "pw99999", some "admin"⟩).status = some 409 ∧
    (signup "production" [⟨1, "Ann", "a@x.com", bcryptHash "secret123", "user"⟩]
        ⟨some "Bob", some "a@x.com", some "pw99999", some "admin"⟩).body =
      some (JVal.obj [("error", JVal.str "Email already exists")]) :=
  C5_duplicate_email_409 "production"
    [⟨1, "Ann", "a@x.com", bcryptHash "secret123", "user"⟩]
    ⟨some "Bob", some "a@x.com", some "pw99999", some "admin"⟩
    ⟨"Bob", "a@x.com", "pw99999", "admin"⟩ rfl rfl

/-- C6: every sign-out request, with or without a token cookie present,
clears the token cookie unconditionally, responds 200 with the sign-out
body, and passes no error to next; the handler has no failure path. -/
theorem C6_signout_unconditional_200 (nodeEnv : String) (req : Req) :
    (signout nodeEnv req).status = some 200 ∧
    (signout nodeEnv req).body = some (JVal.obj [("message", JVal.str "User signed out")]) ∧
    (signout nodeEnv req).nexted = none ∧
    Effect.clearCookie "token" (cookies.clearOptions nodeEnv none) ∈
      (signout nodeEnv req).effects := by
  refine ⟨rfl, rfl, rfl, ?_⟩
  exact List.mem_cons_self _ _

theorem signupIssues_nodup (b : Body) : (signupIssues b).Nodup := by
  rcases b with ⟨n, e, p, r⟩
  unfold signupIssues
  rcases n with _ | n <;> rcases e with _ | e <;> rcases p with _ | p <;> rcases r with _ | r <;>
    dsimp only <;> first
    | decide
    | (split_ifs <;> decide)

theorem signinIssues_nodup (b : Body) : (signinIssues b).Nodup := by
  rcases b with ⟨n, e, p, r⟩
  unfold signinIssues
  rcases e with _ | e <;> rcases p with _ | p <;>
    dsimp only <;> first
    | decide
    | (split_ifs <;> decide)

/-- C7: a body that fails schema validation makes signup and signin respond
400 with the field-level detail list without invoking the auth service: the
outcome performs no effects at all, a missing email contributes an email
entry, an empty password a password entry, an unknown role value a role
entry, and the issue list never repeats a field, so it holds one entry per
violated field. -/
theorem C7_validation_400_without_service (nodeEnv : String) (store : List User)
    (b1 b2 : Body)
    (h1 : signupIssues b1 ≠ []) (h2 : signinIssues b2 ≠ []) :
    (signup nodeEnv store b1).status = some 400 ∧
    (signup nodeEnv store b1).body = some (validationFailedBody (signupIssues b1)) ∧
    (∀ op, Effect.serviceCall op ∉ (signup nodeEnv store b1).effects) ∧
    (signin nodeEnv store b2).status = some 400 ∧
    (signin nodeEnv store b2).body = some (validationFailedBody (signinIssues b2)) ∧
    (∀ op, Effect.serviceCall op ∉ (signin nodeEnv store b2).effects) ∧
    (signupIssues b1).Nodup ∧ (signinIssues b2).Nodup ∧
    (b1.email = none → "email" ∈ signupIssues b1) ∧
    (b1.password = some "" → "password" ∈ signupIssues b1) ∧
    (∀ r, b1.role = some r → r ≠ "user" → r ≠ "admin" → "role" ∈ signupIssues b1) := by
  have hv1 : signupSchemaParse b1 = Except.error (signupIssues b1) := by
    rw [signupSchemaParse, if_neg h1]
  have hv2 : signinSchemaParse b2 = Except.error (signinIssues b2) := by
    rw [signinSchemaParse, if_neg h2]
  have e1 : signup nodeEnv store b1 =
      ⟨[], some 400, some (validationFailedBody (signupIssues b1)), none⟩ := by
    simp only [signup, hv1]
  have e2 : signin nodeEnv store b2 =
      ⟨[], some 400, some (validationFailedBody (signinIssues b2)), none⟩ := by
    simp only [signin, hv2]
  rw [e1, e2]
  refine ⟨rfl, rfl, ?_, rfl, rfl, ?_, signupIssues_nodup b1, signinIssues_nodup b2, ?_, ?_, ?_⟩
  · intro op h
    exact List.not_mem_nil _ h
  · intro op h
    exact List.not_mem_nil _ h
  · intro he
    simp [signupIssues, he]
  · intro hp
    have hh : "".isEmpty = true := rfl
    simp [signupIssues, hp, hh]
  · intro r hr hru hra
    simp [signupIssues, hr, hru, hra]

/-- C7 witness: a signup body missing the email, with an empty password and
an unknown role gets 400 with exactly those three detail entries, and a
signin body with a malformed email and no password gets 400. -/
theorem C7_witness :
    (signup "production" [] ⟨some "Ann", none, some "", some "boss"⟩).status = some 400 ∧
    (signup "production" [] ⟨some "Ann", none, some "", some "boss"⟩).body =
      some (validationFailedBody ["email", "password", "role"]) ∧
    (signin "production" [] ⟨none, some "nonsense", none, none⟩).status = some 400 :=
  have h := C7_validation_400_without_service "production" []
    ⟨some "Ann", none, some "", some "boss"⟩ ⟨none, some "nonsense", none, none⟩
    (by decide) (by decide)
  ⟨h.1, h.2.1, h.2.2.2.1⟩

/-- C10: a body that passes signup validation makes the stub signup of
src/src/controllers/auth.controller.js respond 201 with a user whose id is
the literal 1, perform no service call and set no cookie; the submitted
password does not influence its outcome; and at a concrete valid request
the stub and the full signup handler of src/unnamed/part_000 perform
different effects, so the two are not behaviorally equivalent. -/
theorem C10_stub_signup_departs_from_full (b : Body) (d : SignupData)
    (hv : signupSchemaParse b = Except.ok d)
    (n e r p1 p2 : String) (hp1 : p1.isEmpty = false) (hp2 : p2.isEmpty = false) :
    (stubSignup b).status = some 201 ∧
    (stubSignup b).body = some (JVal.obj [("message", JVal.str "User registered"),
      ("user", JVal.obj [("id", JVal.int 1), ("name", JVal.str d.name),
        ("email", JVal.str d.email), ("role", JVal.str d.role)])]) ∧
    (∀ op, Effect.serviceCall op ∉ (stubSignup b).effects) ∧
    (∀ nm v o, Effect.setCookie nm v o ∉ (stubSignup b).effects) ∧
    stubSignup ⟨some n, some e, some p1, some r⟩ =
      stubSignup ⟨some n, some e, some p2, some r⟩ ∧
    (stubSignup ⟨some "Ann", some "a@x.com", some "secret123", none⟩).effects ≠
      (signup "production" [] ⟨some "Ann", some "a@x.com", some "secret123", none⟩).effects := by
  have e1 : stubSignup b =
      ⟨[Effect.logInfo ("User registered successfully: " ++ d.email)],
       some 201,
       some (JVal.obj [("message", JVal.str "User registered"),
         ("user", JVal.obj [("id", JVal.int 1), ("name", JVal.str d.name),
                            ("email", JVal.str d.email), ("role", JVal.str d.role)])]),
       none⟩ := by
    simp only [stubSignup, hv]
  have hiss : signupIssues ⟨some n, some e, some p1, some r⟩ =
      signupIssues ⟨some n, some e, some p2, some r⟩ := by
    simp [signupIssues, hp1, hp2]
  refine ⟨?_, ?_, ?_, ?_, ?_, ?_⟩
  · rw [e1]
  · rw [e1]
  · intro op h
    rw [e1] at h
    simp at h
  · intro nm v o h
    rw [e1] at h
    simp at h
  · simp only [stubSignup, signupSchemaParse, hiss]
    split_ifs <;> rfl
  · decide

/-- C10 witness: a concrete valid signup body gets 201 from the stub, and
two bodies differing only in password get the identical stub outcome. -/
theorem C10_witness :
    (stubSignup ⟨some "Ann", some "a@x.com", some "secret123", none⟩).status = some 201 ∧
    stubSignup ⟨some "Bob", some "b@y.com", some "pw111", some "admin"⟩ =
      stubSignup ⟨some "Bob", some "b@y.com", some "pw222", some "admin"⟩ :=
  have h := C10_stub_signup_departs_from_full
    ⟨some "Ann", some "a@x.com", some "secret123", none⟩
    ⟨"Ann", "a@x.com", "secret123", "user"⟩ rfl
    "Bob" "b@y.com" "admin" "pw111" "pw222" rfl rfl
  ⟨h.1, h.2.2.2.2.1⟩
